import Mathlib

/-!
Shallow embedding of the kpfm repository (github.com/rparaujo/kpfm).

The repository has two layers:

* a refactored library layer, `pkg/model` (Connection, Context, Contexts,
  PortForwardStatus) and `pkg/kube` (GetCurrentContext, WatchContextChanges,
  GetPodName, SetupPortForward, ListPorts);
* the program entry point `main.go` (the later revision, with a status
  channel, a restart loop and `findService`), which still uses its own local
  `Config`/`Profile`/`Service` types and its own `setupPortForward` /
  `getPodNameFromService`, and does not call into `pkg/kube` at all.

External collaborators (the kubeconfig loader, the Kubernetes API, the SPDY
round tripper, the port-forwarder) are modelled as explicit inputs: each
fallible call is an `Except String` (or `Option String` for a terminal
error) field of an environment record, and the cluster itself is a record of
functions answering the service-get and pod-list calls.  Channel sends are
modelled as lists of emitted values, in program order.
-/

/-- Embeds `model.PortForwardStatus` (pkg/model and, identically, the
`PortForwardStatus` struct local to main.go): the terminal report of one
port-forward, with `Err = none` standing for a nil Go error. -/
structure PortForwardStatus where
  ServiceName : String
  Err : Option String
deriving DecidableEq, Repr

/-- Embeds `model.Connection` (pkg/model): one desired tunnel. -/
structure Connection where
  ServiceName : String
  PodName : String
  RemoteServicePort : Int
  RemotePodPort : Int
  Namespace : String
  LocalPort : Int
deriving DecidableEq, Repr

/-- The part of a Kubernetes service object that `GetPodName` reads: its
label selector (`service.Spec.Selector`), a string-to-string map modelled as
an association list. -/
structure ServiceSpec where
  Selector : List (String × String)
deriving DecidableEq, Repr

/-- The part of a pod object that the code reads: its name. -/
structure PodInfo where
  Name : String
deriving DecidableEq, Repr

/-- The cluster as seen through the two API calls `GetPodName` makes:
`getService ns name` embeds `clientset.CoreV1().Services(ns).Get(name)` and
`listPods ns selector` embeds `clientset.CoreV1().Pods(ns).List` with the
label selector (the Go code stringifies the selector map; we pass the map
itself).  An `Except.error` is a failed cluster call. -/
structure ClusterState where
  getService : String → String → Except String ServiceSpec
  listPods : String → List (String × String) → Except String (List PodInfo)

/-- Embeds `kube.GetPodName` (pkg/kube/service.go, lines 13-37): get the
service; fail if it has no selector; list pods matching the selector; fail
if none; return the first pod name in listing order. -/
def GetPodName (cluster : ClusterState) (ns serviceName : String) :
    Except String String :=
  match cluster.getService ns serviceName with
  | .error e => .error e
  | .ok service =>
    if service.Selector.length = 0 then
      .error "service has no selector"
    else
      match cluster.listPods ns service.Selector with
      | .error e => .error e
      | .ok [] => .error "no pods found for this service"
      | .ok (p :: _) => .ok p.Name

/-- Embeds one loop iteration of `kube.WatchContextChanges`
(pkg/kube/context.go, lines 38-49).  `read` is the result of
`GetCurrentContext()` on this tick.  On error the code prints and
`continue`s, leaving `lastContext` untouched and sending nothing.  On
success it sends `currentContext` on the notify channel exactly when
`currentContext != lastContext && lastContext != ""`, and then always sets
`lastContext = currentContext`.  Returns (new lastContext, sent value). -/
def watchStep (lastContext : String) (read : Except String String) :
    String × Option String :=
  match read with
  | .error _ => (lastContext, none)
  | .ok currentContext =>
    if currentContext ≠ lastContext ∧ lastContext ≠ "" then
      (currentContext, some currentContext)
    else
      (currentContext, none)

/-- Runs `watchStep` over a sequence of ticks, starting from baseline
`lastContext` (the zero value `""` of `var lastContext string` at entry to
`WatchContextChanges`), returning what is sent on the notify channel at each
tick (`none` = nothing sent on that tick). -/
def watchRun (lastContext : String) : List (Except String String) → List (Option String)
  | [] => []
  | read :: rest =>
    let s := watchStep lastContext read
    s.2 :: watchRun s.1 rest

/-- Mirrors the SPEC WORDING of the ContextWatcher contract, not the code,
for comparison with `watchRun`: after a baseline value `prev`, each tick
emits the freshly read value exactly when it differs from the stored
baseline, and the read value always becomes the new baseline. -/
def baselineEmits (prev : String) : List String → List (Option String)
  | [] => []
  | v :: rest => (if v ≠ prev then some v else none) :: baselineEmits v rest

/-- Mirrors the SPEC WORDING for a whole run over successful reads: the
first read becomes the baseline and emits nothing; later ticks follow
`baselineEmits`. -/
def specEmits : List String → List (Option String)
  | [] => []
  | v :: rest => none :: baselineEmits v rest

/-- The collaborator calls `kube.SetupPortForward` makes, as explicit
inputs: `clientcmd.BuildConfigFromFlags`, `kubernetes.NewForConfig`,
`spdy.RoundTripperFor`, the cluster (for `GetPodName`), `portforward.New`,
and the terminal result of `forwarder.ForwardPorts()` (`none` = nil). -/
structure KubeEnv where
  buildConfigResult : Except String Unit
  newForConfigResult : Except String Unit
  roundTripperResult : Except String Unit
  cluster : ClusterState
  forwarderNewResult : Except String Unit
  forwardPortsResult : Option String

/-- Observable outcome of one call of `kube.SetupPortForward`: the
`PortForwardStatus` values sent on `statusCh`, in order, plus whether the
pod-resolution call (`GetPodName`) was made and whether
`forwarder.ForwardPorts()` was started. -/
structure PFOutcome where
  events : List PortForwardStatus
  resolvedPod : Bool
  tunnelStarted : Bool
deriving DecidableEq, Repr

/-- Embeds the tail of `kube.SetupPortForward` after the target pod name is
fixed (pkg/kube/portForward.go, lines 57-96): round-tripper creation, then
`portforward.New`, each posting its error on `statusCh` and returning; on
success the forward goroutine runs `ForwardPorts()` and sends its result. -/
def setupPortForwardAfterPod (env : KubeEnv) (connection : Connection)
    (resolved : Bool) : PFOutcome :=
  match env.roundTripperResult with
  | .error e => ⟨[⟨connection.ServiceName, some e⟩], resolved, false⟩
  | .ok _ =>
    match env.forwarderNewResult with
    | .error e => ⟨[⟨connection.ServiceName, some e⟩], resolved, false⟩
    | .ok _ => ⟨[⟨connection.ServiceName, env.forwardPortsResult⟩], resolved, true⟩

/-- Embeds `kube.SetupPortForward` (pkg/kube/portForward.go, lines 21-96).
Each early failure (kubeconfig build, client creation, pod determination)
sends one `PortForwardStatus` carrying the error and returns.  The target
pod is `connection.PodName` if non-empty, else resolved through `GetPodName`
if `connection.ServiceName` is non-empty, else the call fails with
"both ServiceName and PodName are empty". -/
def SetupPortForward (env : KubeEnv) (connection : Connection) : PFOutcome :=
  match env.buildConfigResult with
  | .error e => ⟨[⟨connection.ServiceName, some e⟩], false, false⟩
  | .ok _ =>
    match env.newForConfigResult with
    | .error e => ⟨[⟨connection.ServiceName, some e⟩], false, false⟩
    | .ok _ =>
      if connection.PodName ≠ "" then
        setupPortForwardAfterPod env connection false
      else if connection.ServiceName ≠ "" then
        match GetPodName env.cluster connection.Namespace connection.ServiceName with
        | .error e => ⟨[⟨connection.ServiceName, some e⟩], true, false⟩
        | .ok _ => setupPortForwardAfterPod env connection true
      else
        ⟨[⟨connection.ServiceName, some "both ServiceName and PodName are empty"⟩],
          false, false⟩

/-- Embeds the `Service` struct local to main.go. -/
structure Service where
  Name : String
  Namespace : String
  LocalPort : Int
  RemotePort : Int
deriving DecidableEq, Repr

/-- Embeds the `Profile` struct local to main.go. -/
structure Profile where
  Services : List Service
deriving DecidableEq, Repr

/-- Embeds the `Config` struct local to main.go.  `Profiles` is a Go map
from profile name to `Profile`; it is modelled as an association list (Go
map iteration order is unspecified; the list fixes one order). -/
structure Config where
  Profiles : List (String × Profile)
deriving DecidableEq, Repr

/-- Embeds the startup loop of `main` (main.go): for every profile in the
config and every service in that profile, a `setupPortForward` worker
goroutine is launched.  Returns the list of services for which a worker is
started.  No context lookup occurs anywhere in `main`: neither
`kube.GetCurrentContext` nor `kube.WatchContextChanges` is called. -/
def startupWorkers (config : Config) : List Service :=
  config.Profiles.flatMap (fun p => p.2.Services)

/-- Embeds the inner loop of `findService` over one profile: first service
whose `Name` matches, if any. -/
def findServiceInList (services : List Service) (serviceName : String) :
    Option Service :=
  match services with
  | [] => none
  | s :: rest =>
    if s.Name = serviceName then some s else findServiceInList rest serviceName

/-- Embeds the profile scan of `findService`: first match across the
profiles in iteration order. -/
def findServiceProfiles (profiles : List (String × Profile))
    (serviceName : String) : Option Service :=
  match profiles with
  | [] => none
  | (_, p) :: rest =>
    match findServiceInList p.Services serviceName with
    | some s => some s
    | none => findServiceProfiles rest serviceName

/-- Embeds `findService` (main.go): scan all profiles for a service with
the given name; return the zero-value `Service` when none is found (the
code comment reads "Return an empty service if not found"). -/
def findService (config : Config) (serviceName : String) : Service :=
  match findServiceProfiles config.Profiles serviceName with
  | some s => s
  | none => ⟨"", "", 0, 0⟩

/-- Embeds one iteration of the status-monitor goroutine of `main`
(main.go): `for status := range statusCh`, and when `status.Err != nil` a
fresh `setupPortForward` worker is launched for
`findService(services, status.ServiceName)` — unconditionally, whether or
not the name occurs in the config.  Returns the list of services for which
a replacement worker is started by this event (empty when `Err` is nil). -/
def monitorStep (config : Config) (status : PortForwardStatus) : List Service :=
  match status.Err with
  | some _ => [findService config status.ServiceName]
  | none => []

/-- Embeds `getPodNameFromService` (main.go): body identical, line for
line, to `kube.GetPodName` — main.go keeps its own copy. -/
def getPodNameFromService (cluster : ClusterState) (ns serviceName : String) :
    Except String String :=
  match cluster.getService ns serviceName with
  | .error e => .error e
  | .ok service =>
    if service.Selector.length = 0 then
      .error "service has no selector"
    else
      match cluster.listPods ns service.Selector with
      | .error e => .error e
      | .ok [] => .error "no pods found for this service"
      | .ok (p :: _) => .ok p.Name

/-- Result of one call of the `setupPortForward` function local to main.go:
either `fatal msg` — the call hit a `log.Fatal`/`log.Fatalf`, which
terminates the whole process — or `finished events`, the
`PortForwardStatus` values it sends on `statusCh`. -/
inductive MainPFResult where
  | fatal (msg : String)
  | finished (events : List PortForwardStatus)
deriving DecidableEq, Repr

/-- Embeds `setupPortForward` local to main.go.  In program order:
kubeconfig build, client creation, round-tripper creation, then
`getPodNameFromService`, then `portforward.New` — every one of these
failures calls `log.Fatal`/`log.Fatalf` and so kills the process (no status
event is sent).  On success the forward goroutine runs `ForwardPorts()` and
always sends its result (nil or not) on `statusCh`. -/
def mainSetupPortForward (env : KubeEnv) (service : Service) : MainPFResult :=
  match env.buildConfigResult with
  | .error e => .fatal e
  | .ok _ =>
    match env.newForConfigResult with
    | .error e => .fatal e
    | .ok _ =>
      match env.roundTripperResult with
      | .error e => .fatal e
      | .ok _ =>
        match getPodNameFromService env.cluster service.Namespace service.Name with
        | .error e => .fatal e
        | .ok _ =>
          match env.forwarderNewResult with
          | .error e => .fatal e
          | .ok _ => .finished [⟨service.Name, env.forwardPortsResult⟩]

/-- The inputs the supervisor in `main` could react to: a context-change
notification (the value `kube.WatchContextChanges` would send on its notify
channel) or a worker status report. -/
inductive SupervisorEvent where
  | contextChange (name : String)
  | status (s : PortForwardStatus)
deriving DecidableEq, Repr

/-- Supervisor state: the multiset of services with a live
`setupPortForward` worker, and how many worker cancellations the supervisor
has triggered. -/
structure SupervisorState where
  workers : List Service
  cancellationsIssued : Nat
deriving DecidableEq, Repr

/-- Embeds the reaction of `main` to one event.  The only event loop in
`main` is `for status := range statusCh` — no code in `main` receives
context-change notifications (`kube.WatchContextChanges` has no caller in
the program), and no code path in `main` closes any stop channel or cancels
a worker, so a `contextChange` event leaves the state unchanged and
`cancellationsIssued` never grows.  A status event means the reporting
worker goroutine has ended (it sends on `statusCh` only after
`ForwardPorts()` returns); when its `Err` is non-nil, `main` launches one
replacement worker for `findService(config, status.ServiceName)`. -/
def supervisorStep (config : Config) (st : SupervisorState)
    (ev : SupervisorEvent) : SupervisorState :=
  match ev with
  | .contextChange _ => st
  | .status s =>
    let remaining := st.workers.eraseP (fun w => w.Name == s.ServiceName)
    match s.Err with
    | some _ => ⟨remaining ++ [findService config s.ServiceName], st.cancellationsIssued⟩
    | none => ⟨remaining, st.cancellationsIssued⟩

/-- Helper: every branch of the post-pod tail of `kube.SetupPortForward`
sends exactly one status event. -/
theorem setupPortForwardAfterPod_one_event (env : KubeEnv) (c : Connection)
    (r : Bool) : (setupPortForwardAfterPod env c r).events.length = 1 := by
  obtain ⟨bc, nf, rt, cl, fn, fp⟩ := env
  cases rt <;> cases fn <;> rfl

/-- Claim C8: every invocation of `kube.SetupPortForward` sends exactly one
`PortForwardStatus` event on the status channel — one carrying the error on
each early configuration/resolution/setup failure path, or one terminal
event carrying the result of `ForwardPorts()` — never zero and never more
than one. -/
theorem SetupPortForward_sends_exactly_one_status (env : KubeEnv)
    (c : Connection) : (SetupPortForward env c).events.length = 1 := by
  unfold SetupPortForward
  split
  · rfl
  · split
    · rfl
    · split
      · exact setupPortForwardAfterPod_one_event _ _ _
      · split
        · split
          · rfl
          · exact setupPortForwardAfterPod_one_event _ _ _
        · rfl

/-- Claim C5: with the service fetched successfully and the pod listing
succeeding, `GetPodName` fails with "service has no selector" exactly when
the service declares no label selector; fails with "no pods found for this
service" exactly when the matching pod list is empty; and otherwise returns
the name of the first pod in listing order. -/
theorem GetPodName_spec (cluster : ClusterState) (ns name : String)
    (svc : ServiceSpec) (pods : List PodInfo)
    (hs : cluster.getService ns name = .ok svc)
    (hp : cluster.listPods ns svc.Selector = .ok pods) :
    (GetPodName cluster ns name = .error "service has no selector" ↔
      svc.Selector = []) ∧
    (svc.Selector ≠ [] →
      (GetPodName cluster ns name = .error "no pods found for this service" ↔
        pods = [])) ∧
    (∀ p rest, svc.Selector ≠ [] → pods = p :: rest →
      GetPodName cluster ns name = .ok p.Name) := by
  unfold GetPodName
  rw [hs]
  dsimp only
  by_cases hsel : svc.Selector = []
  · simp [hsel]
  · rw [if_neg (by simpa [List.length_eq_zero] using hsel)]
    rw [hp]
    refine ⟨?_, ?_, ?_⟩
    · cases pods <;> simp [hsel]
    · intro _
      cases pods <;> simp
    · intro p rest _ hpods
      subst hpods
      rfl

/-- Witness for C5: on a concrete cluster whose service "api" has selector
app=demo and whose matching pods are pod-1, pod-2, `GetPodName` returns
"pod-1". -/
theorem GetPodName_spec_witness :
    GetPodName ⟨fun _ _ => .ok ⟨[("app", "demo")]⟩,
        fun _ _ => .ok [⟨"pod-1"⟩, ⟨"pod-2"⟩]⟩ "ns1" "api" = .ok "pod-1" :=
  (GetPodName_spec ⟨fun _ _ => .ok ⟨[("app", "demo")]⟩,
        fun _ _ => .ok [⟨"pod-1"⟩, ⟨"pod-2"⟩]⟩ "ns1" "api"
      ⟨[("app", "demo")]⟩ [⟨"pod-1"⟩, ⟨"pod-2"⟩] rfl rfl).2.2
    ⟨"pod-1"⟩ [⟨"pod-2"⟩] (by simp) rfl

/-- Claim C9: when the kubeconfig build and client creation succeed and a
connection has both `PodName` and `ServiceName` empty,
`kube.SetupPortForward` sends exactly one status event whose error is
"both ServiceName and PodName are empty" and returns without calling
`GetPodName` and without starting any tunnel. -/
theorem SetupPortForward_empty_identity (env : KubeEnv) (c : Connection)
    (hb : env.buildConfigResult = .ok ())
    (hn : env.newForConfigResult = .ok ())
    (hpod : c.PodName = "") (hsvc : c.ServiceName = "") :
    SetupPortForward env c =
      ⟨[⟨"", some "both ServiceName and PodName are empty"⟩], false, false⟩ := by
  unfold SetupPortForward
  rw [hb, hn]
  simp [hpod, hsvc]

/-- Witness for C9 at a concrete environment and the all-empty connection. -/
theorem SetupPortForward_empty_identity_witness :
    SetupPortForward ⟨.ok (), .ok (), .ok (),
        ⟨fun _ _ => .error "unused", fun _ _ => .error "unused"⟩, .ok (), none⟩
      ⟨"", "", 0, 0, "", 0⟩ =
      ⟨[⟨"", some "both ServiceName and PodName are empty"⟩], false, false⟩ :=
  SetupPortForward_empty_identity _ _ rfl rfl rfl rfl

/-- Helper: once the stored baseline is non-empty and every remaining read
is a successful non-empty read, the watcher emits exactly when the fresh
value differs from the baseline, and the fresh value always becomes the new
baseline. -/
theorem watchRun_nonempty_baseline (vs : List String) :
    ∀ prev, prev ≠ "" → (∀ v ∈ vs, v ≠ "") →
      watchRun prev (vs.map Except.ok) = baselineEmits prev vs := by
  induction vs with
  | nil => intro prev _ _; rfl
  | cons v rest ih =>
    intro prev hprev hall
    have hv : v ≠ "" := hall v (List.mem_cons_self v rest)
    have hrest : ∀ w ∈ rest, w ≠ "" := fun w hw => hall w (List.mem_cons_of_mem v hw)
    by_cases hne : v = prev
    · subst hne
      simp only [watchRun, watchStep, List.map_cons, baselineEmits]
      rw [if_neg (by simp)]
      simpa using ih v hv hrest
    · simp only [watchRun, watchStep, List.map_cons, baselineEmits]
      rw [if_pos ⟨hne, hprev⟩, if_pos hne]
      simpa using ih v hv hrest

/-- Counterexample to claim C6 as stated: for the successful read sequence
"", "dev" the code emits nothing on tick 2 although the freshly read value
"dev" differs from the stored baseline "" (the spec-worded behaviour
`specEmits` would emit "dev" there). -/
theorem watchRun_empty_read_counterexample :
    watchRun "" [Except.ok "", Except.ok "dev"] = [none, none] ∧
    specEmits ["", "dev"] = [none, some "dev"] ∧ "dev" ≠ "" := by
  refine ⟨rfl, by decide, by decide⟩

/-- Claim C6 (amended — restricted to non-empty reads): under any sequence
of successful non-empty context reads, the watcher emits nothing on the
tick of its first read (which becomes the baseline) and on every later tick
emits the freshly read value exactly when it differs from the stored
baseline, updating the baseline; this is `specEmits`. -/
theorem watchRun_matches_spec_on_nonempty_reads (vs : List String)
    (h : ∀ v ∈ vs, v ≠ "") :
    watchRun "" (vs.map Except.ok) = specEmits vs := by
  cases vs with
  | nil => rfl
  | cons v rest =>
    have hv : v ≠ "" := h v (List.mem_cons_self v rest)
    have hrest : ∀ w ∈ rest, w ≠ "" := fun w hw => h w (List.mem_cons_of_mem v hw)
    simp only [watchRun, watchStep, List.map_cons, specEmits]
    rw [if_neg (by simp)]
    simpa using watchRun_nonempty_baseline rest v hv hrest

/-- Witness for C6: the scenario "dev", "dev", "staging" emits nothing on
ticks 1 and 2 and exactly one notification "staging" on tick 3. -/
theorem watchRun_dev_dev_staging :
    watchRun "" (["dev", "dev", "staging"].map Except.ok) =
      [none, none, some "staging"] := by
  rw [watchRun_matches_spec_on_nonempty_reads ["dev", "dev", "staging"] (by decide)]
  decide

/-- Claim C7: on a tick whose context read fails, the watcher leaves the
stored baseline unchanged, emits no notification, and proceeds to the next
tick (the remaining run is as if the failed tick were dropped). -/
theorem watchStep_failed_read (lastContext e : String)
    (reads : List (Except String String)) :
    watchStep lastContext (.error e) = (lastContext, none) ∧
    watchRun lastContext (.error e :: reads) =
      none :: watchRun lastContext reads :=
  ⟨rfl, rfl⟩

/-- Claim C10: whenever the stored baseline is the empty string, a
successful read emits nothing regardless of its value and silently becomes
the new baseline; in particular the read sequence "dev", "", "staging"
emits a notification for the empty string on tick 2 and none for
"staging". -/
theorem watchStep_empty_baseline (v : String)
    (reads : List (Except String String)) :
    watchStep "" (.ok v) = (v, none) ∧
    watchRun "" (Except.ok v :: reads) = none :: watchRun v reads ∧
    watchRun "" [Except.ok "dev", Except.ok "", Except.ok "staging"] =
      [none, some "", none] := by
  refine ⟨?_, ?_, by decide⟩
  · simp [watchStep]
  · simp [watchRun, watchStep]

/-- Claim C1 (code bug): `main` never consults the active kube context at
startup — neither `kube.GetCurrentContext` nor `kube.WatchContextChanges`
is called — and launches one worker per service of every profile.  For the
configuration with profiles dev -> [api] and staging -> [db], with
ContextSource returning "dev", the started set is [api, db], not the
expected [api] of the active context: the connection of the non-active "staging" profile
is started too. -/
theorem startupWorkers_ignore_active_context :
    startupWorkers ⟨[("dev", ⟨[⟨"api", "ns1", 8080, 80⟩]⟩),
        ("staging", ⟨[⟨"db", "ns2", 9090, 90⟩]⟩)]⟩ =
      [⟨"api", "ns1", 8080, 80⟩, ⟨"db", "ns2", 9090, 90⟩] ∧
    [⟨"api", "ns1", 8080, 80⟩, (⟨"db", "ns2", 9090, 90⟩ : Service)] ≠
      [⟨"api", "ns1", 8080, 80⟩] :=
  ⟨rfl, by decide⟩

/-- Claim C2 (code bug): `main` has no context-change handling at all —
no code in the program receives the notifications `kube.WatchContextChanges`
would send — so a context-change event cancels nothing and leaves the
worker set unchanged.  Concretely, with profiles a -> [x] and b -> [y],
the startup worker set is [x, y] (both profiles) and after a context change
to "b" it is still [x, y] with zero cancellations issued, instead of the
claimed drain to exactly [y] with x cancelled once. -/
theorem supervisorStep_ignores_context_change :
    (∀ (config : Config) (st : SupervisorState) (name : String),
      supervisorStep config st (SupervisorEvent.contextChange name) = st) ∧
    startupWorkers ⟨[("a", ⟨[⟨"x", "ns", 1, 1⟩]⟩), ("b", ⟨[⟨"y", "ns", 2, 2⟩]⟩)]⟩ =
      [⟨"x", "ns", 1, 1⟩, ⟨"y", "ns", 2, 2⟩] ∧
    supervisorStep ⟨[("a", ⟨[⟨"x", "ns", 1, 1⟩]⟩), ("b", ⟨[⟨"y", "ns", 2, 2⟩]⟩)]⟩
        ⟨[⟨"x", "ns", 1, 1⟩, ⟨"y", "ns", 2, 2⟩], 0⟩
        (SupervisorEvent.contextChange "b") =
      ⟨[⟨"x", "ns", 1, 1⟩, ⟨"y", "ns", 2, 2⟩], 0⟩ ∧
    ([⟨"x", "ns", 1, 1⟩, (⟨"y", "ns", 2, 2⟩ : Service)] ≠ [⟨"y", "ns", 2, 2⟩]) :=
  ⟨fun _ _ _ => rfl, rfl, rfl, by decide⟩

/-- Counterexample to claim C3 as stated: a Failed status event for
"ghost", a name present nowhere in the configuration, is not dropped —
`main` starts one replacement worker, with the zero-value Service that
`findService` returns. -/
theorem monitorStep_unknown_name_not_dropped :
    monitorStep ⟨[("dev", ⟨[⟨"api", "ns1", 8080, 80⟩]⟩)]⟩ ⟨"ghost", some "boom"⟩ =
      [⟨"", "", 0, 0⟩] ∧
    ([(⟨"", "", 0, 0⟩ : Service)] ≠ ([] : List Service)) :=
  ⟨rfl, by decide⟩

/-- Claim C3 (amended): every Failed status event causes exactly one
replacement worker to be started, with the result of `findService`: the first
service of that name across all profiles when one exists (`main` has no
notion of an active context), and the zero-value Service when the name is
absent — the event is never dropped. -/
theorem monitorStep_failed_always_restarts (config : Config)
    (name err : String) :
    monitorStep config ⟨name, some err⟩ = [findService config name] ∧
    (∀ s, findServiceProfiles config.Profiles name = some s →
      monitorStep config ⟨name, some err⟩ = [s]) ∧
    (findServiceProfiles config.Profiles name = none →
      monitorStep config ⟨name, some err⟩ = [⟨"", "", 0, 0⟩]) := by
  refine ⟨rfl, ?_, ?_⟩
  · intro s hfind
    simp [monitorStep, findService, hfind]
  · intro hfind
    simp [monitorStep, findService, hfind]

/-- Witness for C3: for the config dev -> [api], a Failed event for "api"
restarts exactly one worker, with the api service. -/
theorem monitorStep_failed_restart_witness :
    monitorStep ⟨[("dev", ⟨[⟨"api", "ns1", 8080, 80⟩]⟩)]⟩ ⟨"api", some "boom"⟩ =
      [⟨"api", "ns1", 8080, 80⟩] :=
  (monitorStep_failed_always_restarts ⟨[("dev", ⟨[⟨"api", "ns1", 8080, 80⟩]⟩)]⟩
      "api" "boom").2.1 ⟨"api", "ns1", 8080, 80⟩ (by decide)

/-- Claim C4 (code bug): in the worker function `main` actually launches
(`setupPortForward` local to main.go), an endpoint-resolution failure —
here "service has no selector" — hits `log.Fatal`, terminating the whole
process with no status event and no restart; the refactored
`kube.SetupPortForward`, by contrast, surfaces the same failure as exactly
one Failed status event, as the claim describes. -/
theorem mainSetupPortForward_fatal_on_resolution_failure :
    mainSetupPortForward ⟨.ok (), .ok (), .ok (),
        ⟨fun _ _ => .ok ⟨[]⟩, fun _ _ => .ok []⟩, .ok (), none⟩
      ⟨"api", "ns1", 8080, 80⟩ = .fatal "service has no selector" ∧
    (SetupPortForward ⟨.ok (), .ok (), .ok (),
        ⟨fun _ _ => .ok ⟨[]⟩, fun _ _ => .ok []⟩, .ok (), none⟩
      ⟨"api", "", 80, 0, "ns1", 8080⟩).events =
      [⟨"api", some "service has no selector"⟩] :=
  ⟨rfl, rfl⟩
